import Mathlib

/-!
Verification of the AirbrakesV2 flight software against its design spec.

The Python sources are shallowly embedded: Python `float` is modelled as `Rat`
(the claims under study are about exact data flow, not rounding), Python `None`
as `Option.none`, and raised exceptions as an explicit `PyError` value returned
alongside the partially mutated object state.
-/

namespace Airbrakes2

/-! ## Flight state machine (`src/Airbrakes/state.py`)

The four `State` subclasses are `StandByState`, `MotorBurnState`, `FlightState`
(the coast phase: "when the motor has burned out and the rocket is coasting")
and `FreeFallState`. Each is modelled by a tag of `Phase`. -/

inductive Phase
  | standBy
  | motorBurn
  | coast
  | freeFall
  deriving DecidableEq, Repr

/-- Position of a phase in the flight order StandBy → MotorBurn → Coast → FreeFall. -/
def phaseIdx : Phase → Nat
  | .standBy => 0
  | .motorBurn => 1
  | .coast => 2
  | .freeFall => 3

/-- Modelled from the spec: `Airbrakes.airbrakes.AirbrakesContext` is imported by
`src/Airbrakes/state.py` but its module is not under `src/`. Per the spec it holds
the current flight state object and the actuator's normalized extension, which
starts stowed at `0.0` (spec 4.3: StandBy is initial, extension forced to 0.0). -/
structure AirbrakesContext where
  state : Phase
  extension : Rat

/-- Initial context: the rocket is on the rail in StandBy, airbrakes stowed. -/
def initialContext : AirbrakesContext :=
  { state := .standBy, extension := 0 }

/-- `State.update` dispatched on the current phase. In the source every subclass
body is `pass`: no phase interacts with the servo, so the context (extension
included) is unchanged. -/
def State.update (c : AirbrakesContext) : AirbrakesContext :=
  match c.state with
  | .standBy => c
  | .motorBurn => c
  | .coast => c
  | .freeFall => c

/-- `State.next_state` dispatched on the current phase. `StandByState` installs
`MotorBurnState`, `MotorBurnState` installs `FlightState` (coast), `FlightState`
installs `FreeFallState`, and `FreeFallState.next_state` is `pass`: there is
explicitly no next state. Only `context.state` is assigned. -/
def State.next_state (c : AirbrakesContext) : AirbrakesContext :=
  match c.state with
  | .standBy => { c with state := .motorBurn }
  | .motorBurn => { c with state := .coast }
  | .coast => { c with state := .freeFall }
  | .freeFall => c

/-- The successor phase installed by `next_state`, at the phase level. -/
def nextPhase (p : Phase) : Phase :=
  (State.next_state { state := p, extension := 0 }).state

/-- One externally triggered operation on the state machine: a control-loop tick
calling `update`, or a transition via `next_state`. -/
inductive StateOp
  | update
  | nextState

/-- Apply one operation to the context. -/
def stepOp (c : AirbrakesContext) : StateOp → AirbrakesContext
  | .update => State.update c
  | .nextState => State.next_state c

/-- Run a sequence of operations from a context. -/
def runOps (ops : List StateOp) (c : AirbrakesContext) : AirbrakesContext :=
  ops.foldl stepOp c

end Airbrakes2

namespace Airbrakes2

lemma State.update_state (c : AirbrakesContext) : (State.update c).state = c.state := by
  cases h : c.state <;> simp [State.update, h]

lemma State.update_extension (c : AirbrakesContext) :
    (State.update c).extension = c.extension := by
  cases h : c.state <;> simp [State.update, h]

lemma State.next_state_extension (c : AirbrakesContext) :
    (State.next_state c).extension = c.extension := by
  cases h : c.state <;> simp [State.next_state, h]

lemma stepOp_extension (c : AirbrakesContext) (op : StateOp) :
    (stepOp c op).extension = c.extension := by
  cases op
  · exact State.update_extension c
  · exact State.next_state_extension c

lemma runOps_extension (ops : List StateOp) (c : AirbrakesContext) :
    (runOps ops c).extension = c.extension := by
  induction ops generalizing c with
  | nil => rfl
  | cons op ops ih =>
      simpa [runOps, List.foldl_cons, stepOp_extension] using ih (stepOp c op)

lemma stepOp_phaseIdx (c : AirbrakesContext) (op : StateOp) :
    phaseIdx c.state ≤ phaseIdx (stepOp c op).state := by
  cases op
  · simp [stepOp, State.update_state]
  · cases h : c.state <;> simp [stepOp, State.next_state, h, phaseIdx]

lemma runOps_phaseIdx (ops : List StateOp) (c : AirbrakesContext) :
    phaseIdx c.state ≤ phaseIdx (runOps ops c).state := by
  induction ops generalizing c with
  | nil => exact le_rfl
  | cons op ops ih =>
      exact le_trans (stepOp_phaseIdx c op) (by simpa [runOps, List.foldl_cons] using ih (stepOp c op))

/-- C1: for every sequence of ticks and transitions from the initial context, in any
phase other than Coast the airbrake extension is exactly 0.0. (In this snapshot of
the source every phase's `update` body is `pass`, so no phase ever commands a
non-zero extension; the extension keeps its initial stowed value 0.0.) -/
theorem coast_only_nonzero_extension (ops : List StateOp)
    (_hphase : (runOps ops initialContext).state ≠ Phase.coast) :
    (runOps ops initialContext).extension = 0 := by
  rw [runOps_extension]
  rfl

/-- Witness for C1 at the empty operation sequence: the initial phase is StandBy,
not Coast, and the extension there is 0.0. -/
theorem coast_only_nonzero_extension_witness :
    (runOps [] initialContext).state ≠ Phase.coast ∧
      (runOps [] initialContext).extension = 0 :=
  ⟨by decide, coast_only_nonzero_extension [] (by decide)⟩

/-- C2: phase transitions are strictly forward through the total order
StandBy → MotorBurn → Coast → FreeFall. Each phase's `next_state` installs exactly
its single defined successor (so phases are never skipped), FreeFall has no
outgoing transition, and along every sequence of operations the phase index never
decreases (so no phase is ever revisited). -/
theorem transitions_strictly_forward :
    nextPhase .standBy = .motorBurn ∧
      nextPhase .motorBurn = .coast ∧
      nextPhase .coast = .freeFall ∧
      nextPhase .freeFall = .freeFall ∧
      (∀ ops more : List StateOp,
        phaseIdx (runOps ops initialContext).state ≤
          phaseIdx (runOps (ops ++ more) initialContext).state) := by
  refine ⟨rfl, rfl, rfl, rfl, fun ops more => ?_⟩
  show phaseIdx (runOps ops initialContext).state ≤
    phaseIdx (List.foldl stepOp initialContext (ops ++ more)).state
  rw [List.foldl_append]
  exact runOps_phaseIdx more (runOps ops initialContext)

end Airbrakes2

namespace Airbrakes2

/-! ## IMU data packets (`src/airbrakes/imu/imu_data_packet.py`)

`EstimatedDataPacket` extends the packet base class with the estimated channels.
Every channel except the timestamp defaults to `None` in the constructor. Note
that its slots contain `estPressureAlt` but no `altitude` attribute. -/

structure EstimatedDataPacket where
  timestamp : Rat
  estFilterGpsTimeTow : Option Rat := none
  estFilterGpsTimeWeekNum : Option Int := none
  estOrientQuaternion : Option (Rat × Rat × Rat × Rat) := none
  estPressureAlt : Option Rat := none
  estFilterState : Option Int := none
  estFilterDynamicsMode : Option Int := none
  estFilterStatusFlags : Option Int := none
  estAttitudeUncertQuaternion : Option (Rat × Rat × Rat × Rat) := none
  estAngularRateX : Option Rat := none
  estAngularRateY : Option Rat := none
  estAngularRateZ : Option Rat := none
  estCompensatedAccelX : Option Rat := none
  estCompensatedAccelY : Option Rat := none
  estCompensatedAccelZ : Option Rat := none
  deriving DecidableEq, Repr

/-! ## Data processor (`src/airbrakes/imu/data_processor.py`)

Python exceptions are modelled explicitly: an operation returns the object state
as mutated up to the point of the raise, together with the exception, if any. -/

/-- Exceptions the embedded data-processor code can raise. -/
inductive PyError
  | statisticsError
  | typeError
  | attributeError
  deriving DecidableEq, Repr

/-- `statistics.fmean` applied to a stream of Python values that are floats or
`None`: an empty stream raises `StatisticsError` (fmean requires at least one
data point); a `None` in the stream raises `TypeError` during summation;
otherwise the result is the arithmetic mean. -/
def fmean (data : List (Option Rat)) : Except PyError Rat :=
  if data.length = 0 then .error .statisticsError
  else if data.any Option.isNone then .error .typeError
  else .ok ((data.map (fun x => x.getD 0)).sum / data.length)

/-- The `ProcessedIMUData` object: the current packet sequence and the three
cached derived quantities, initialised to zero in `__init__`. -/
structure ProcessedIMUData where
  data_points : List EstimatedDataPacket
  _avg_accel : Rat × Rat × Rat
  _avg_accel_mag : Rat
  _max_altitude : Rat
  deriving DecidableEq, Repr

/-- `ProcessedIMUData.__init__`: stores the packet sequence and zeroes the
cached averages and maximum altitude. -/
def ProcessedIMUData.init (data_points : List EstimatedDataPacket) : ProcessedIMUData :=
  { data_points := data_points
    _avg_accel := (0, 0, 0)
    _avg_accel_mag := 0
    _max_altitude := 0 }

/-- `compute_averages`: the per-axis `fmean` of the compensated acceleration of
the current packets, evaluated x then y then z as in the source. -/
def compute_averages (self : ProcessedIMUData) : Except PyError (Rat × Rat × Rat) := do
  let x_accel ← fmean (self.data_points.map (fun p => p.estCompensatedAccelX))
  let y_accel ← fmean (self.data_points.map (fun p => p.estCompensatedAccelY))
  let z_accel ← fmean (self.data_points.map (fun p => p.estCompensatedAccelZ))
  return (x_accel, y_accel, z_accel)

/-- `update_data`, line by line. Line 30 replaces `self.data_points` wholesale
(there is no capacity bound and no FIFO queue in this snapshot). Line 31 calls
`compute_averages`, whose exception, if any, propagates with `data_points`
already replaced. Line 32 stores the fresh averages. Line 33 then evaluates
`self._avg_accel ** 2`, but `_avg_accel` is a tuple and `tuple ** int` is
unsupported in Python, so a `TypeError` is raised unconditionally. Control never
reaches line 34, which would itself raise `AttributeError` because
`EstimatedDataPacket` has an `estPressureAlt` slot but no `altitude` slot; hence
`_avg_accel_mag` and `_max_altitude` are never assigned. -/
def update_data (self : ProcessedIMUData) (data_points : List EstimatedDataPacket) :
    ProcessedIMUData × Option PyError :=
  let s1 : ProcessedIMUData := { self with data_points := data_points }
  match compute_averages s1 with
  | .error e => (s1, some e)
  | .ok (a_x, a_y, a_z) =>
      let s2 : ProcessedIMUData := { s1 with _avg_accel := (a_x, a_y, a_z) }
      (s2, some .typeError)

/-- Accessor `avg_acceleration`. -/
def ProcessedIMUData.avg_acceleration (self : ProcessedIMUData) : Rat × Rat × Rat :=
  self._avg_accel

/-- Accessor `avg_acceleration_mag`. -/
def ProcessedIMUData.avg_acceleration_mag (self : ProcessedIMUData) : Rat :=
  self._avg_accel_mag

/-- Accessor `max_altitude`. -/
def ProcessedIMUData.max_altitude (self : ProcessedIMUData) : Rat :=
  self._max_altitude

end Airbrakes2

namespace Airbrakes2

lemma update_data_data_points (s : ProcessedIMUData) (dps : List EstimatedDataPacket) :
    (update_data s dps).1.data_points = dps := by
  simp only [update_data]
  split <;> rfl

lemma update_data_max_altitude (s : ProcessedIMUData) (dps : List EstimatedDataPacket) :
    (update_data s dps).1._max_altitude = s._max_altitude := by
  simp only [update_data]
  split <;> rfl

/-- An estimated packet reporting altitude 100 m and unit acceleration on each axis. -/
def pktAlt100 : EstimatedDataPacket :=
  { timestamp := 0
    estPressureAlt := some 100
    estCompensatedAccelX := some 1
    estCompensatedAccelY := some 1
    estCompensatedAccelZ := some 1 }

/-- C3: evaluation at the failing input. Feeding one packet with altitude 100 to a
fresh processor should, per the claim, make `max_altitude` equal
`max 0 100 = 100`; instead the call raises `TypeError` at line 33 (squaring the
`_avg_accel` tuple) before line 34 ever runs, so `max_altitude` stays `0.0`
forever (line 34 would also fail: `EstimatedDataPacket` has no `altitude`
attribute). -/
theorem max_altitude_never_updated :
    (update_data (ProcessedIMUData.init []) [pktAlt100]).2 = some PyError.typeError ∧
      (update_data (ProcessedIMUData.init []) [pktAlt100]).1.max_altitude = 0 ∧
      (0 : Rat) ≠ max 0 100 := by
  refine ⟨by decide, by decide, by norm_num⟩

end Airbrakes2

namespace Airbrakes2

/-- A default estimated packet: only the (required) timestamp is set, every other
channel keeps its constructor default `None`. -/
def pktDefault : EstimatedDataPacket :=
  { timestamp := 0 }

/-- Fold a sequence of `update_data` calls over a processor, keeping the mutated
object of each call (exceptions propagate to the caller but the mutations made
before the raise persist on the object). -/
def runUpdates (s : ProcessedIMUData) (batches : List (List EstimatedDataPacket)) :
    ProcessedIMUData :=
  batches.foldl (fun t b => (update_data t b).1) s

/-- C4, counterexample: there is no capacity bound `N` on the processing window at
all — for every putative `N`, a single `update_data` call with `N + 1` packets
leaves more than `N` packets in `data_points`. -/
theorem no_window_capacity :
    ¬ ∃ N : Nat, ∀ batches : List (List EstimatedDataPacket),
        (runUpdates (ProcessedIMUData.init []) batches).data_points.length ≤ N := by
  rintro ⟨N, h⟩
  have h1 := h [List.replicate (N + 1) pktDefault]
  rw [runUpdates, List.foldl_cons, List.foldl_nil, update_data_data_points,
    List.length_replicate] at h1
  omega

/-- C4, amended: `update_data` replaces the packet sequence wholesale. After any
call the window is exactly the sequence passed to that call, in arrival order
(equivalently: after any non-empty run of updates, exactly the last batch); there
is no capacity bound and no FIFO eviction. Raw packets are excluded only by the
declared element type `Sequence[EstimatedDataPacket]`, which the embedding
reflects in the type of `data_points`. -/
theorem window_is_last_batch (s : ProcessedIMUData) (dps : List EstimatedDataPacket)
    (batches : List (List EstimatedDataPacket)) :
    (update_data s dps).1.data_points = dps ∧
      (runUpdates s (batches ++ [dps])).data_points = dps := by
  refine ⟨update_data_data_points s dps, ?_⟩
  rw [runUpdates, List.foldl_append, List.foldl_cons, List.foldl_nil,
    update_data_data_points]

/-- C5, counterexample: updating the processor with an empty window does raise an
error — `statistics.fmean` raises `StatisticsError` on an empty data stream — so
the empty window is not a defined degenerate state of this code. -/
theorem empty_window_raises :
    (update_data (ProcessedIMUData.init []) []).2 ≠ none ∧
      (update_data (ProcessedIMUData.init []) []).2 = some PyError.statisticsError := by
  exact ⟨by decide, by decide⟩

/-- C5, amended: updating with an empty window raises `StatisticsError` out of
`compute_averages`; the cached averages are not recomputed and the accessors keep
their previous values — which on a freshly constructed processor are the zero
vector and magnitude `0.0`. -/
theorem empty_window_error_state (s : ProcessedIMUData) :
    (update_data s []).2 = some PyError.statisticsError ∧
      (update_data s []).1.avg_acceleration = s.avg_acceleration ∧
      (update_data s []).1.avg_acceleration_mag = s.avg_acceleration_mag ∧
      (update_data s []).1.max_altitude = s.max_altitude ∧
      (ProcessedIMUData.init []).avg_acceleration = (0, 0, 0) ∧
      (ProcessedIMUData.init []).avg_acceleration_mag = 0 := by
  refine ⟨rfl, rfl, rfl, rfl, rfl, rfl⟩

/-- An estimated packet with compensated acceleration (3, 4, 0), whose average
vector has Euclidean norm 5. -/
def pktAccel340 : EstimatedDataPacket :=
  { timestamp := 0
    estCompensatedAccelX := some 3
    estCompensatedAccelY := some 4
    estCompensatedAccelZ := some 0 }

lemma update_data_avg_accel_mag (s : ProcessedIMUData) (dps : List EstimatedDataPacket) :
    (update_data s dps).1._avg_accel_mag = s._avg_accel_mag := by
  simp only [update_data]
  split <;> rfl

lemma fmean_singleton (x : Rat) : fmean [some x] = .ok x := by
  simp [fmean]

lemma compute_averages_340 :
    compute_averages { (ProcessedIMUData.init []) with data_points := [pktAccel340] } =
      .ok (3, 4, 0) := by
  simp [compute_averages, pktAccel340, fmean_singleton, Bind.bind, Except.bind,
    Pure.pure, Except.pure]

/-- C6: evaluation at the failing input. After updating a fresh processor with one
packet of acceleration (3, 4, 0) the claim requires
`avg_acceleration_mag = sqrt(3^2 + 4^2 + 0^2) = 5`; instead line 33 raises
`TypeError` (it evaluates `self._avg_accel ** 2` on the tuple rather than
squaring the components), so the magnitude is never assigned and stays `0.0`,
even though the average vector was computed as (3, 4, 0) on line 32. -/
theorem mag_never_computed :
    (update_data (ProcessedIMUData.init []) [pktAccel340]).2 = some PyError.typeError ∧
      (update_data (ProcessedIMUData.init []) [pktAccel340]).1.avg_acceleration = (3, 4, 0) ∧
      (update_data (ProcessedIMUData.init []) [pktAccel340]).1.avg_acceleration_mag = 0 ∧
      (5 : Rat) ^ 2 = 3 ^ 2 + 4 ^ 2 + 0 ^ 2 ∧ (0 : Rat) ≠ 5 := by
  refine ⟨?_, ?_, ?_, by norm_num, by norm_num⟩
  · simp [update_data, compute_averages_340]
  · simp [update_data, compute_averages_340, ProcessedIMUData.avg_acceleration]
  · rw [ProcessedIMUData.avg_acceleration_mag, update_data_avg_accel_mag]
    rfl

end Airbrakes2

namespace Airbrakes2

/-! ## Logger (`src/airbrakes/logger.py`)

The logger runs `_logging_loop` in a separate process, draining a
multiprocessing queue. `log()` enqueues one record dict per packet; `stop()`
first clears the shared `_running` flag and only then enqueues the distinguished
stop-signal string, then joins the process. -/

/-- A message on the logger's queue: either a per-packet record dict enqueued by
`log()` (identified here by a label), or the stop-signal string `"STOP"`
enqueued by `stop()`. A record dict never compares equal to the stop string. -/
inductive LogMessage
  | record : Nat → LogMessage
  | stopSignal : LogMessage
  deriving DecidableEq, Repr

/-- `_logging_loop`, parameterized by the scheduling of the concurrently written
`_running` flag: `trueChecks` is the number of times the loop's
`while self._running.value` test still reads `True`; once `stop()` has cleared
the flag every later test reads `False` (the flag is only ever cleared, never
re-set, during a run). Each iteration that passes the test dequeues one message,
breaks if it is the stop signal, and otherwise writes one row; an exhausted
queue blocks in `get()` forever, writing nothing more. The result is the list
of rows written after the header. -/
def loggingLoop : (trueChecks : Nat) → List LogMessage → List Nat
  | 0, _ => []
  | _ + 1, [] => []
  | k + 1, .record r :: rest => r :: loggingLoop k rest
  | _ + 1, .stopSignal :: _ => []

/-- The queue contents once `records` have been submitted and `stop()` has run:
the stop signal sits after all real records. -/
def stopQueue (records : List Nat) : List LogMessage :=
  records.map .record ++ [.stopSignal]

/-- C7: evaluation at the failing input. Submit records 7 and 8, then call
`stop()`. If the consumer's flag reads stay `True` until the stop signal is
dequeued (three passed checks), both rows are written and the marker is not.
But `stop()` clears `_running` before enqueueing the stop signal, so when the
consumer was still blocked in `queue.get()` as `stop()` ran (only its first
check had read `True`), it writes row 7, re-tests the flag, reads `False` and
exits — leaving record 8 and the stop signal undrained even though `stop()`
then joins successfully. The guarantee that every record submitted before
`stop()` is written before `stop()` returns is therefore scheduling-dependent
and violated on this trace. -/
theorem records_lost_on_stop :
    loggingLoop 3 (stopQueue [7, 8]) = [7, 8] ∧
      loggingLoop 1 (stopQueue [7, 8]) = [7] ∧
      [7] ≠ [7, 8] := by
  refine ⟨rfl, rfl, by decide⟩

/-! ## IMU public interface (`src/Airbrakes/imu.py`)

The fetch process fills the shared `latest_data` dictionary; `get_imu_data`
reads it with `dict.get`. -/

/-- The shared `latest_data` dictionary, one optional slot per key the code ever
reads; `none` models an absent key. -/
structure LatestData where
  timestamp : Option Rat := none
  acceleration : Option Rat := none
  velocity : Option Rat := none
  altitude : Option Rat := none
  yaw : Option Rat := none
  pitch : Option Rat := none
  roll : Option Rat := none
  deriving DecidableEq, Repr

/-- `Airbrakes.imu.IMUDataPacket`: each field holds a float or Python `None`. -/
structure IMUDataPacket where
  timestamp : Option Rat
  acceleration : Option Rat
  velocity : Option Rat
  altitude : Option Rat
  yaw : Option Rat
  pitch : Option Rat
  roll : Option Rat
  deriving DecidableEq, Repr

/-- `IMU.get_imu_data`: builds the packet with `latest_data.get(key)` (absent →
`None`) for every channel except the timestamp, which is read with
`latest_data.get("timestamp", 0.0)` (absent → the numeric default `0.0`). -/
def get_imu_data (d : LatestData) : IMUDataPacket :=
  { timestamp := some (d.timestamp.getD 0)
    acceleration := d.acceleration
    velocity := d.velocity
    altitude := d.altitude
    yaw := d.yaw
    pitch := d.pitch
    roll := d.roll }

/-- C8, counterexample: with nothing yet reported by the sensor (empty shared
dictionary), the packet's timestamp reads back as the sentinel `0.0`, not as
`None` — the claim fails for the timestamp field. -/
theorem absent_timestamp_reads_zero :
    (get_imu_data {}).timestamp = some 0 ∧ (get_imu_data {}).timestamp ≠ none := by
  exact ⟨rfl, by simp [get_imu_data]⟩

/-- C8, amended: every optional channel the sensor did not report reads back as
`None` (the packet field is exactly the dictionary slot), but the timestamp is
the exception: when absent it reads back as the numeric default `0.0`. -/
theorem optional_channels_read_none (d : LatestData) :
    (get_imu_data d).acceleration = d.acceleration ∧
      (get_imu_data d).velocity = d.velocity ∧
      (get_imu_data d).altitude = d.altitude ∧
      (get_imu_data d).yaw = d.yaw ∧
      (get_imu_data d).pitch = d.pitch ∧
      (get_imu_data d).roll = d.roll ∧
      (get_imu_data d).timestamp = some (d.timestamp.getD 0) :=
  ⟨rfl, rfl, rfl, rfl, rfl, rfl, rfl⟩

end Airbrakes2

namespace Airbrakes2

/-! ## Log file creation (`src/airbrakes/logger.py` `__init__`; the
`src/Airbrakes/logger.py` variant uses the same numbering logic)

`__init__` globs `log_*.csv` in the log directory, parses the numeric suffix of
each with `int(stem.split("_")[-1])`, takes the maximum (0 when no such file
exists), creates `log_<max+1>.csv` and writes the header row into it. -/

/-- Python `max(...)` over the non-empty list of parsed suffixes, and `0` when
the glob found nothing (`... if existing_logs else 0`). -/
def maxSuffix : List Int → Int
  | [] => 0
  | x :: xs => xs.foldl max x

/-- The file name chosen for the run: `log_<max suffix + 1>.csv`. -/
def logFileName (suffixes : List Int) : String :=
  "log_" ++ toString (maxSuffix suffixes + 1) ++ ".csv"

/-- The rows of the freshly created log file: `__init__` writes exactly one row,
the field names joined by commas. -/
def initialLogRows (csv_headers : List String) : List String :=
  [String.intercalate "," csv_headers]

lemma foldl_max_le (xs : List Int) (a n : Int) (ha : a ≤ n) (h : ∀ m ∈ xs, m ≤ n) :
    xs.foldl max a ≤ n := by
  induction xs generalizing a with
  | nil => exact ha
  | cons x xs ih =>
      exact ih (max a x) (max_le ha (h x (List.mem_cons_self x xs)))
        (fun m hm => h m (List.mem_cons_of_mem x hm))

lemma le_foldl_max (xs : List Int) (a : Int) : a ≤ xs.foldl max a := by
  induction xs generalizing a with
  | nil => exact le_rfl
  | cons x xs ih => exact le_trans (le_max_left a x) (ih (max a x))

lemma mem_le_foldl_max (xs : List Int) (a m : Int) (hm : m ∈ xs) : m ≤ xs.foldl max a := by
  induction xs generalizing a with
  | nil => cases hm
  | cons x xs ih =>
      rcases List.mem_cons.mp hm with h | h
      · subst h
        exact le_trans (le_max_right a m) (le_foldl_max xs (max a m))
      · exact ih (max a x) h

lemma maxSuffix_eq (suffixes : List Int) (n : Int) (hmem : n ∈ suffixes)
    (hub : ∀ m ∈ suffixes, m ≤ n) : maxSuffix suffixes = n := by
  cases suffixes with
  | nil => cases hmem
  | cons x xs =>
      refine le_antisymm ?_ ?_
      · exact foldl_max_le xs x n (hub x (List.mem_cons_self x xs))
          (fun m hm => hub m (List.mem_cons_of_mem x hm))
      · rcases List.mem_cons.mp hmem with h | h
        · subst h
          exact le_foldl_max xs n
        · exact mem_le_foldl_max xs x n h

/-- C9: when the existing numbered logs have highest numeric suffix `n`, the new
log file for the run is named `log_<n+1>.csv`; when no numbered log exists it is
`log_1.csv`; and the first row of the fresh file is the header row listing the
field names. -/
theorem log_file_numbering (suffixes : List Int) (n : Int) (hs : List String)
    (hmem : n ∈ suffixes) (hub : ∀ m ∈ suffixes, m ≤ n) :
    logFileName suffixes = "log_" ++ toString (n + 1) ++ ".csv" ∧
      logFileName [] = "log_1.csv" ∧
      (initialLogRows hs).head? = some (String.intercalate "," hs) := by
  refine ⟨?_, rfl, rfl⟩
  rw [logFileName, maxSuffix_eq suffixes n hmem hub]

/-- Witness for C9 with existing logs numbered 3 and 1: the run creates
`log_4.csv`. -/
theorem log_file_numbering_witness :
    logFileName [3, 1] = "log_4.csv" ∧
      logFileName [] = "log_1.csv" ∧
      (initialLogRows ["state", "extension"]).head? = some "state,extension" := by
  have h := log_file_numbering [3, 1] 3 ["state", "extension"] (by decide) (by decide)
  exact ⟨h.1, h.2.1, h.2.2⟩

/-! ## Utility conversions (`src/airbrakes/utils.py`) -/

/-- Python `int(q)` on a finite value: truncation toward zero. -/
def pyInt (q : Rat) : Int :=
  if 0 ≤ q then ⌊q⌋ else ⌈q⌉

/-- `convert_to_nanoseconds`: the input either converts to a float (`some v`) or
makes `float(value)` raise `ValueError`/`TypeError` (`none`), which the function
catches by returning Python `None`. On a convertible value the source computes
`int(float(value) * 10e9)`, and the literal `10e9` is `10^10`. -/
def convert_to_nanoseconds : Option Rat → Option Int
  | some v => some (pyInt (v * 10000000000))
  | none => none

/-- C10: evaluation at the failing input. Converting the value 1 (one second)
returns 10,000,000,000 because the source multiplies by `10e9 = 10^10` instead
of the seconds-to-nanoseconds factor `1e9 = 10^9` that its own docstring
promises; the claimed result `1 * 10^9` differs by a factor of ten.
Non-convertible inputs do return `None` as the claim states. -/
theorem nanoseconds_factor_wrong :
    convert_to_nanoseconds (some 1) = some 10000000000 ∧
      (10000000000 : Int) ≠ 1 * 10 ^ 9 ∧
      convert_to_nanoseconds none = none := by
  refine ⟨?_, by norm_num, rfl⟩
  show some (pyInt (1 * 10000000000)) = some 10000000000
  norm_num [pyInt]

end Airbrakes2
